import Mathlib

/-!
Verification of the meal-analysis pipeline of protein_v1.

The development shallowly embeds the two Supabase edge functions
(src/unnamed/part_000, the image+coaching version, and src/unnamed/part_001,
the older text-only-coaching version) together with the client-side degraded
result construction (src/app/page.tsx).  JavaScript numbers are modelled by
`JNum` (NaN / ±Infinity / a finite rational); JavaScript strings are modelled
by Lean strings, with the text operations (trim, whitespace collapse, slice,
toLowerCase, startsWith) re-implemented over the character list `String.data`
so that every definition evaluates by kernel reduction.
-/

/-- Model of a JavaScript number: NaN, the two infinities, or a finite value
(represented exactly as a rational). -/
inductive JNum where
  | nan : JNum
  | posInf : JNum
  | negInf : JNum
  | fin (q : ℚ) : JNum
deriving DecidableEq

/-- JavaScript Number.isFinite. -/
def JNum.isFinite : JNum → Bool
  | .fin _ => true
  | _ => false

/-- JavaScript comparison n >= r (false whenever n is NaN). -/
def JNum.geQ : JNum → ℚ → Bool
  | .nan, _ => false
  | .posInf, _ => true
  | .negInf, _ => false
  | .fin q, r => decide (r ≤ q)

/-- JavaScript Math.round on a finite value: floor(x + 1/2)
(ties round toward positive infinity, as Math.round does).  Written with
integer floor division so that it evaluates by kernel reduction; the lemma
jsRound_eq_floor below shows it is the mathematical floor of q + 1/2. -/
def jsRound (q : ℚ) : ℤ := Int.fdiv (2 * q.num + q.den) (2 * q.den)

/-- Whitespace test used by the embedded trim / regex-collapse operations.
Models the common (ASCII) part of the JavaScript \s class and of
String.prototype.trim: space, tab, newline, carriage return, vertical tab,
form feed. -/
def isJsWhitespace (c : Char) : Bool :=
  c = ' ' || c = '\t' || c = '\n' || c = '\x0d' || c = '\x0b' || c = '\x0c'

/-- Drop leading and trailing whitespace from a character list
(String.prototype.trim). -/
def jsTrimList (l : List Char) : List Char :=
  ((l.dropWhile isJsWhitespace).reverse.dropWhile isJsWhitespace).reverse

/-- String.prototype.trim. -/
def jsTrim (s : String) : String := String.mk (jsTrimList s.data)

/-- String.prototype.trimEnd. -/
def jsTrimEnd (s : String) : String :=
  String.mk ((s.data.reverse.dropWhile isJsWhitespace).reverse)

/-- Replace every maximal run of whitespace by a single space:
the effect of replace(/\s+/g, " "). -/
def squashWs : List Char → List Char
  | [] => []
  | [c] => [if isJsWhitespace c then ' ' else c]
  | c1 :: c2 :: rest =>
    if isJsWhitespace c1 && isJsWhitespace c2 then squashWs (c2 :: rest)
    else (if isJsWhitespace c1 then ' ' else c1) :: squashWs (c2 :: rest)

/-- clampText from part_000 lines 65-68 (identical in part_001 lines 151-154):
trim, collapse internal whitespace runs to single spaces, and if the result is
longer than mx, keep the first mx-1 characters, trim trailing whitespace, and
append the ellipsis character. -/
def clampText (text : String) (mx : Nat) : String :=
  let t : String := String.mk (squashWs (jsTrimList text.data))
  if t.length > mx then jsTrimEnd (String.mk (t.data.take (mx - 1))) ++ "…" else t

/-- ASCII lower-casing of one character (the fragment of
String.prototype.toLowerCase exercised by the pipeline). -/
def lowerChar (c : Char) : Char :=
  if 'A' ≤ c && c ≤ 'Z' then Char.ofNat (c.toNat + 32) else c

/-- String.prototype.toLowerCase (ASCII model). -/
def jsToLower (s : String) : String := String.mk (s.data.map lowerChar)

/-- String.prototype.startsWith. -/
def strStartsWith (s pat : String) : Bool :=
  decide (s.data.take pat.data.length = pat.data)

/-- The coaching object of the parsed model output, before validation
(each field may be absent). -/
structure ParsedCoaching where
  five_min_fix : Option String
  next_time_tweak : Option String
  reason : Option String
deriving DecidableEq

/-- The parsed, untrusted model output (the result of JSON.parse on the
inference service's text).  protein_grams is the value of
Number(parsed?.protein_grams), so a missing or non-numeric field appears here
as NaN; the string fields are the raw strings, absent fields are none. -/
structure ParsedOutput where
  protein_grams : JNum
  confidence : Option String
  notes : Option String
  fat_risk : Option String
  fibre_risk : Option String
  carb_type : Option String
  meal_summary : Option String
  coaching : Option ParsedCoaching
deriving DecidableEq

/-- A validated coaching triple (CoachingOut in part_000). -/
structure CoachingOut where
  five_min_fix : String
  next_time_tweak : String
  reason : String
deriving DecidableEq

/-- The validated analysis record (MealLLMOutput in part_000). -/
structure MealLLMOutput where
  protein_grams : ℤ
  confidence : String
  notes : String
  fat_risk : String
  fibre_risk : String
  carb_type : String
  meal_summary : String
  coaching : CoachingOut
deriving DecidableEq

/-- The single fatal validation error of the validator: protein_grams is
non-finite or outside [0, 500].  In the source this is the thrown
Error whose message starts with Bad protein_grams from model. -/
inductive VError where
  | InvalidProteinEstimate : VError
deriving DecidableEq

/-- Message text carried by a validation error (the source interpolates the
raw model output after this prefix). -/
def vErrMessage : VError → String
  | .InvalidProteinEstimate => "Bad protein_grams from model"

/-- The validation part of analyzeMealFromImage, part_000 lines 226-268:
coerce and clamp the parsed model output into a fully-typed record, failing
only on a non-finite or out-of-range protein estimate. -/
def analyzeMealValidate (parsed : ParsedOutput) : Except VError MealLLMOutput :=
  let confidence := parsed.confidence.getD "medium"
  let notes := parsed.notes.getD ""
  match parsed.protein_grams with
  | .fin protein =>
    if protein < 0 ∨ 500 < protein then .error .InvalidProteinEstimate
    else
      let fat_risk := parsed.fat_risk.getD "medium"
      let fibre_risk := parsed.fibre_risk.getD "medium"
      let carb_type := parsed.carb_type.getD "mixed"
      let c := parsed.coaching.getD ⟨none, none, none⟩
      .ok {
        protein_grams := jsRound protein
        confidence :=
          if confidence = "low" ∨ confidence = "medium" ∨ confidence = "high"
          then confidence else "medium"
        notes := String.mk (notes.data.take 300)
        fat_risk :=
          if fat_risk = "low" ∨ fat_risk = "medium" ∨ fat_risk = "high"
          then fat_risk else "medium"
        fibre_risk :=
          if fibre_risk = "low" ∨ fibre_risk = "medium" ∨ fibre_risk = "high"
          then fibre_risk else "medium"
        carb_type :=
          if carb_type = "low" ∨ carb_type = "mixed" ∨ carb_type = "refined_heavy"
          then carb_type else "mixed"
        meal_summary := clampText (parsed.meal_summary.getD "") 140
        coaching := {
          five_min_fix := clampText (c.five_min_fix.getD "") 220
          next_time_tweak := clampText (c.next_time_tweak.getD "") 220
          reason := clampText (c.reason.getD "") 220 } }
  | _ => .error .InvalidProteinEstimate

/-- deriveCoachingScenario, part_000 lines 294-317 (identical in part_001
lines 156-179).  Scenario and focus tags are the literal strings of the
source; mealType is the raw optional request field (any string may arrive at
runtime). -/
def deriveCoachingScenario (proteinGrams : JNum) (confidence : String)
    (mealType : Option String) : String × String :=
  if confidence = "low" ∨ proteinGrams.isFinite = false then
    ("UNKNOWN_MEAL", "protein")
  else if proteinGrams.geQ 35 then ("HIGH_PROTEIN", "protein")
  else if proteinGrams.geQ 20 then ("MEDIUM_PROTEIN", "protein")
  else if mealType = some "breakfast" then ("LOW_PROTEIN_BREAKFAST", "protein")
  else if mealType = some "lunch" then ("LOW_PROTEIN_LUNCH", "protein")
  else if mealType = some "dinner" then ("LOW_PROTEIN_DINNER", "protein")
  else if mealType = some "snack" then ("LOW_PROTEIN_SNACK", "snack")
  else ("UNKNOWN_MEAL", "protein")

/-- The Coaching Scenario Classifier exactly as claim C2 words it: written
from the claim text (not the source) to be compared with
deriveCoachingScenario. -/
def claimClassifier (proteinGrams : JNum) (confidence : String)
    (mealType : Option String) : String × String :=
  if confidence = "low" ∨ proteinGrams.isFinite = false then
    ("UNKNOWN_MEAL", "protein")
  else
    match proteinGrams with
    | .fin q =>
      if 35 ≤ q then ("HIGH_PROTEIN", "protein")
      else if 20 ≤ q then ("MEDIUM_PROTEIN", "protein")
      else if mealType = some "breakfast" then ("LOW_PROTEIN_BREAKFAST", "protein")
      else if mealType = some "lunch" then ("LOW_PROTEIN_LUNCH", "protein")
      else if mealType = some "dinner" then ("LOW_PROTEIN_DINNER", "protein")
      else if mealType = some "snack" then ("LOW_PROTEIN_SNACK", "snack")
      else ("UNKNOWN_MEAL", "protein")
    | _ => ("UNKNOWN_MEAL", "protein")

/-- fallbackCoaching, part_000 lines 319-387: the deterministic coaching
generator of the image+coaching version.  The scenario tag is matched as a
string (the switch's default covers UNKNOWN_MEAL and any unmatched tag). -/
def fallbackCoaching (scenario_id : String) (proteinGrams : ℚ) : CoachingOut :=
  if scenario_id = "LOW_PROTEIN_BREAKFAST" then
    { five_min_fix :=
        "Add a quick protein side like Greek yoghurt, eggs, or a protein milk/latte."
      next_time_tweak :=
        "Next time, start breakfast with a protein base (eggs, yoghurt bowl, or a shake) then add carbs."
      reason := "Breakfast looks low on protein, so a simple add-on helps immediately." }
  else if scenario_id = "LOW_PROTEIN_LUNCH" then
    { five_min_fix :=
        "Add a quick protein side like tinned tuna/salmon, leftover chicken, or a tub of Greek yoghurt."
      next_time_tweak :=
        "Next time, add one planned protein item to this lunch (chicken, tuna, eggs, or tofu)."
      reason := "Lunch looks low on protein; a fast add-on is the quickest win." }
  else if scenario_id = "LOW_PROTEIN_DINNER" then
    { five_min_fix :=
        "Add a protein anchor now: extra meat/fish, eggs, tofu, or a quick yoghurt-based side."
      next_time_tweak :=
        "Next time, add one planned protein portion to this dinner so it lands stronger."
      reason := "Dinner looks low on protein; anchoring the meal makes it simple." }
  else if scenario_id = "LOW_PROTEIN_SNACK" then
    { five_min_fix :=
        "Swap or add a protein snack: yoghurt, cheese, boiled eggs, jerky, or a shake."
      next_time_tweak :=
        "Next time, keep one grab-and-go protein snack stocked so it’s effortless."
      reason := "Snack looks low on protein; a quick swap improves satiety fast." }
  else if scenario_id = "HIGH_PROTEIN" then
    { five_min_fix :=
        "Nice — this is already protein-forward. If you’re still hungry, add fruit or veg on the side."
      next_time_tweak :=
        "Next time, keep the same protein portion and add one veg/plant side you enjoy."
      reason :=
        "Protein is already strong (~" ++ toString (jsRound proteinGrams) ++
          "g), so the win is consistency." }
  else if scenario_id = "MEDIUM_PROTEIN" then
    { five_min_fix :=
        "Add a small protein top-up now: yoghurt, a slice of cheese, an egg, or tinned fish."
      next_time_tweak :=
        "Next time, add one planned protein item so you don’t have to ‘fix it’ later."
      reason := "Protein is mid-range; one small add-on usually gets it over the line." }
  else
    { five_min_fix :=
        "Add something protein-y now if you can: yoghurt, eggs, tinned fish, leftover meat, or a shake."
      next_time_tweak :=
        "Next time, add one planned protein item to this meal so it’s more filling."
      reason := "The meal is unclear, so the safest coaching is a simple protein add-on." }

/-- fallbackCoaching of the older version, part_001 lines 181-249 (same
structure, different wording for several scenarios). -/
def fallbackCoachingV1 (scenario_id : String) (proteinGrams : ℚ) : CoachingOut :=
  if scenario_id = "LOW_PROTEIN_BREAKFAST" then
    { five_min_fix :=
        "Add a quick protein side like Greek yoghurt, eggs, or a protein milk/latte."
      next_time_tweak :=
        "Next time, start breakfast with a protein base (eggs, yoghurt bowl, or a shake) then add carbs."
      reason := "Breakfast looks low on protein, so a simple add-on helps immediately." }
  else if scenario_id = "LOW_PROTEIN_LUNCH" then
    { five_min_fix :=
        "Top it up with an easy protein add-on: tinned tuna/salmon, leftover chicken, or a tub of Greek yoghurt."
      next_time_tweak :=
        "Next time, build lunch around the protein (chicken, tuna, eggs, tofu) then add salad/rice/bread."
      reason := "Lunch looks low on protein; a fast add-on is the quickest win." }
  else if scenario_id = "LOW_PROTEIN_DINNER" then
    { five_min_fix :=
        "Add a protein anchor now: extra meat/fish, eggs, tofu, or a quick yoghurt-based side."
      next_time_tweak :=
        "Next time, serve the protein first, then fill out the plate with veg and carbs."
      reason := "Dinner looks low on protein; anchoring the meal makes it simple." }
  else if scenario_id = "LOW_PROTEIN_SNACK" then
    { five_min_fix :=
        "Swap or add a protein snack: yoghurt, cheese, boiled eggs, jerky, or a shake."
      next_time_tweak :=
        "Next time, keep two grab-and-go protein snacks stocked so it’s effortless."
      reason := "Snack looks low on protein; a quick swap improves satiety fast." }
  else if scenario_id = "HIGH_PROTEIN" then
    { five_min_fix :=
        "Nice — this is already protein-forward. If you’re still hungry, add fruit or veg on the side."
      next_time_tweak :=
        "Next time, repeat this structure: protein first, then add carbs/veg to suit your day."
      reason :=
        "Protein is already strong (~" ++ toString (jsRound proteinGrams) ++
          "g), so the win is consistency." }
  else if scenario_id = "MEDIUM_PROTEIN" then
    { five_min_fix :=
        "Top it up with a small add-on: a yoghurt, a slice of cheese, an egg, or some tinned fish."
      next_time_tweak :=
        "Next time, add one deliberate protein item so you don’t have to ‘fix it’ later."
      reason := "Protein is mid-range; one small add-on usually gets it over the line." }
  else
    { five_min_fix :=
        "If you can, add something protein-y now: yoghurt, eggs, tinned fish, leftover meat, or a shake."
      next_time_tweak :=
        "Next time, choose the protein first, then build the meal around it."
      reason := "The meal is unclear, so the safest coaching is a simple protein add-on." }

/-- The coaching acceptance gate, part_000 lines 454-459: model coaching is
trusted only when confidence differs from low, all three fields are non-empty
(truthy), and the lower-cased next_time_tweak starts with the lead-in
phrase. -/
def llmCoachingOk (confidence : String) (coaching : CoachingOut) : Prop :=
  confidence ≠ "low" ∧ coaching.five_min_fix ≠ "" ∧
    coaching.next_time_tweak ≠ "" ∧ coaching.reason ≠ "" ∧
    strStartsWith (jsToLower coaching.next_time_tweak) "next time," = true

instance (confidence : String) (coaching : CoachingOut) :
    Decidable (llmCoachingOk confidence coaching) := by
  unfold llmCoachingOk; infer_instance

/-- The coaching choice of the orchestrator, part_000 lines 461-465: the model
triple when the gate accepts, otherwise the deterministic fallback for the
derived scenario. -/
def chooseCoachingText (analysis : MealLLMOutput) (scenario_id : String) : CoachingOut :=
  if llmCoachingOk analysis.confidence analysis.coaching then analysis.coaching
  else fallbackCoaching scenario_id (analysis.protein_grams : ℚ)

/-- One persisted daily_totals row (id and timestamp omitted: rows are keyed
by the unique (session_id, date) pair). -/
structure DailyRow where
  session_id : String
  date : String
  protein_total : ℤ
  protein_goal : ℤ
deriving DecidableEq

/-- The fixed default daily protein goal (DAILY_GOAL_GRAMS). -/
def DAILY_GOAL_GRAMS : ℤ := 120

/-- The maybeSingle select on daily_totals filtered by session_id and date. -/
def dailyLookup (rows : List DailyRow) (sid date : String) : Option DailyRow :=
  rows.find? (fun r => r.session_id = sid ∧ r.date = date)

/-- The daily object of the success response. -/
structure DailyResult where
  protein_total : ℤ
  protein_goal : ℤ
  remaining : ℤ
deriving DecidableEq

/-- The Daily Totals Accumulator, part_000 lines 495-538: read the existing
row for (session_id, date), add the delta onto its total (0 when absent), keep
its goal (default 120), and upsert keyed on the (session_id, date) uniqueness
constraint.  Returns the new table state and the daily response values. -/
def updateDailyTotals (rows : List DailyRow) (sid date : String) (grams : ℤ) :
    List DailyRow × DailyResult :=
  let existing := dailyLookup rows sid date
  let currentTotal := (existing.map DailyRow.protein_total).getD 0
  let newTotal := currentTotal + grams
  let goal := (existing.map DailyRow.protein_goal).getD DAILY_GOAL_GRAMS
  let newRow : DailyRow := ⟨sid, date, newTotal, goal⟩
  let rows2 :=
    match existing with
    | some _ =>
      rows.map (fun r => if r.session_id = sid ∧ r.date = date then newRow else r)
    | none => rows ++ [newRow]
  (rows2, ⟨newTotal, goal, goal - newTotal⟩)

/-- The inbound request as seen by the edge function: the HTTP method and the
loosely-typed JSON body fields (absent fields are none). -/
structure HttpRequest where
  method : String
  session_id : Option String
  date : Option String
  meal_text : Option String
  meal_type : Option String
  photo_path : Option String
deriving DecidableEq

/-- The coaching object of the success response. -/
structure Coaching where
  scenario_id : String
  focus : String
  five_min_fix : String
  next_time_tweak : String
  reason : String
deriving DecidableEq

/-- The daily object of the success response. -/
structure DailyOut where
  date : String
  protein_total : ℤ
  protein_goal : ℤ
  remaining : ℤ
deriving DecidableEq

/-- The body of an HTTP response from the edge function: the plain OPTIONS
reply, an error object, or the success object. -/
inductive RespBody where
  | plain (s : String) : RespBody
  | errBody (msg : String) : RespBody
  | success (meal_id : String) (protein_grams : ℤ) (confidence : String)
      (notes : String) (coaching : Coaching) (daily : DailyOut) : RespBody
deriving DecidableEq

/-- An HTTP response: status code and body. -/
structure HttpResponse where
  status : Nat
  body : RespBody
deriving DecidableEq

/-- Outcomes of the effectful steps of one request, in pipeline order: signed
URL creation, meals insert (yielding the meal id), the inference call up to
JSON.parse (yielding the parsed output, or the OpenAI transport / invalid-JSON
error message), the meal_analysis insert, the daily_totals select, and the
daily_totals upsert. -/
structure Env where
  signedUrl : Except String String
  mealInsert : Except String String
  inference : Except String ParsedOutput
  analysisInsert : Except String Unit
  dailySelect : Except String Unit
  dailyUpsert : Except String Unit

/-- The Deno.serve handler of part_000 lines 389-544, as a function of the
request, the daily_totals table state, and the outcomes of the effectful
steps.  Returns the response and the daily_totals state after the request. -/
def serveHandler (env : Env) (rows : List DailyRow) (req : HttpRequest) :
    HttpResponse × List DailyRow :=
  if req.method = "OPTIONS" then (⟨200, .plain "ok"⟩, rows)
  else if req.method ≠ "POST" then (⟨405, .errBody "Only POST allowed"⟩, rows)
  else
    let session_id := jsTrim (req.session_id.getD "")
    let date := jsTrim (req.date.getD "")
    let meal_type := req.meal_type
    let photo_path := jsTrim (req.photo_path.getD "")
    if session_id = "" ∨ date = "" ∨ photo_path = "" then
      (⟨400, .errBody "Missing session_id, date, or photo_path"⟩, rows)
    else
      match env.signedUrl with
      | .error m => (⟨500, .errBody ("createSignedUrl failed: " ++ m)⟩, rows)
      | .ok _ =>
        match env.mealInsert with
        | .error m => (⟨500, .errBody ("meals insert failed: " ++ m)⟩, rows)
        | .ok meal_id =>
          match env.inference with
          | .error m => (⟨500, .errBody m⟩, rows)
          | .ok parsed =>
            match analyzeMealValidate parsed with
            | .error e => (⟨500, .errBody (vErrMessage e)⟩, rows)
            | .ok analysis =>
              let sf := deriveCoachingScenario (.fin (analysis.protein_grams : ℚ))
                analysis.confidence meal_type
              let coachingText := chooseCoachingText analysis sf.1
              let coaching : Coaching :=
                ⟨sf.1, sf.2, clampText coachingText.five_min_fix 220,
                  clampText coachingText.next_time_tweak 220,
                  clampText coachingText.reason 220⟩
              match env.analysisInsert with
              | .error m => (⟨500, .errBody ("meal_analysis insert failed: " ++ m)⟩, rows)
              | .ok _ =>
                match env.dailySelect with
                | .error m => (⟨500, .errBody ("daily_totals select failed: " ++ m)⟩, rows)
                | .ok _ =>
                  match env.dailyUpsert with
                  | .error m => (⟨500, .errBody ("daily_totals upsert failed: " ++ m)⟩, rows)
                  | .ok _ =>
                    let rd := updateDailyTotals rows session_id date analysis.protein_grams
                    (⟨200, .success meal_id analysis.protein_grams analysis.confidence
                        analysis.notes coaching
                        ⟨date, rd.2.protein_total, rd.2.protein_goal, rd.2.remaining⟩⟩,
                      rd.1)

/-- The client-side meal result (src/app/page.tsx). -/
structure MealResult where
  protein : ℤ
  confidence : String
  explanation : String
deriving DecidableEq

/-- The degraded result built in the catch branch of handleLogMeal
(src/app/page.tsx lines 154-163): protein forced to 0, confidence forced to
low, the error message carried in the explanation field. -/
def degradedMealResult (errMessage : String) : MealResult :=
  { protein := 0, confidence := "low", explanation := "Failed: " ++ errMessage }

deriving instance DecidableEq for Except

/-- jsRound really is floor(q + 1/2), the JavaScript Math.round. -/
theorem jsRound_eq_floor (q : ℚ) : jsRound q = ⌊q + 1/2⌋ := by
  have hd0 : (0:ℚ) < (q.den : ℚ) := by exact_mod_cast q.pos
  have hnum : (q.num : ℚ) = q * q.den := by
    exact (div_eq_iff hd0.ne').mp (Rat.num_div_den q)
  have hq : q + 1/2 = (((2 * q.num + (q.den:ℤ)) : ℤ) : ℚ) / (((2 * q.den : ℕ)) : ℚ) := by
    push_cast
    rw [eq_div_iff (by positivity)]
    rw [hnum]
    ring
  rw [hq, Rat.floor_intCast_div_natCast]
  unfold jsRound
  rw [Int.fdiv_eq_ediv _ (by positivity)]
  push_cast
  rfl

/-- jsRound is a nearest-integer rounding: it never strays more than half a
unit from its argument. -/
theorem jsRound_near (q : ℚ) : |(jsRound q : ℚ) - q| ≤ 1/2 := by
  rw [jsRound_eq_floor]
  have h1 := Int.floor_le (q + 1/2)
  have h2 := Int.lt_floor_add_one (q + 1/2)
  rw [abs_le]
  constructor <;> [linarith; linarith]

/-- Claim C2: the Coaching Scenario Classifier is the total deterministic
function of (protein grams, confidence, meal type) described by the claim:
confidence low or a non-finite estimate gives UNKNOWN_MEAL/protein; otherwise
35 g and above gives HIGH_PROTEIN/protein, 20 g and above gives
MEDIUM_PROTEIN/protein, and below 20 g the meal type selects the low-protein
scenario (snack with focus snack; absent or unrecognized gives
UNKNOWN_MEAL/protein).  Stated as: the source's deriveCoachingScenario agrees
with claimClassifier, which is written from the claim's words. -/
theorem C2_classifier_agrees_with_claim (p : JNum) (conf : String) (mt : Option String) :
    deriveCoachingScenario p conf mt = claimClassifier p conf mt := by
  cases p <;>
    simp only [deriveCoachingScenario, claimClassifier, JNum.isFinite, JNum.geQ,
      decide_eq_true_eq] <;>
    split_ifs <;>
    simp_all

/-- Claim C3: the Daily Totals Accumulator adds the delta onto the existing
row's total (0 when no row exists), keeps the existing goal (default 120),
and reports remaining = goal - new total; concretely, from an empty state a
25 g meal gives total 25 / remaining 95, a further 30 g meal on the same
session and date gives total 55 / remaining 65, and a meal on another date
leaves the first date's row unchanged. -/
theorem C3_daily_totals_accumulate :
    (∀ (rows : List DailyRow) (sid date : String) (grams : ℤ),
      (updateDailyTotals rows sid date grams).2.protein_total
          = ((dailyLookup rows sid date).map DailyRow.protein_total).getD 0 + grams ∧
      (updateDailyTotals rows sid date grams).2.protein_goal
          = ((dailyLookup rows sid date).map DailyRow.protein_goal).getD 120 ∧
      (updateDailyTotals rows sid date grams).2.remaining
          = (updateDailyTotals rows sid date grams).2.protein_goal
            - (updateDailyTotals rows sid date grams).2.protein_total) ∧
    (updateDailyTotals [] "s1" "2026-01-01" 25).2 = ⟨25, 120, 95⟩ ∧
    (updateDailyTotals (updateDailyTotals [] "s1" "2026-01-01" 25).1
        "s1" "2026-01-01" 30).2 = ⟨55, 120, 65⟩ ∧
    dailyLookup (updateDailyTotals (updateDailyTotals [] "s1" "2026-01-01" 25).1
        "s1" "2026-01-02" 40).1 "s1" "2026-01-01" = some ⟨"s1", "2026-01-01", 25, 120⟩ := by
  refine ⟨fun rows sid date grams => ⟨rfl, rfl, rfl⟩, by decide, by decide, by decide⟩

/-- Characterization of the validator on an in-range finite protein estimate:
it succeeds and produces exactly the coerced record. -/
theorem analyzeMealValidate_ok (c n fr fi ct ms : Option String)
    (co : Option ParsedCoaching) (q : ℚ) (h0 : 0 ≤ q) (h5 : q ≤ 500) :
    analyzeMealValidate ⟨.fin q, c, n, fr, fi, ct, ms, co⟩ = .ok
      { protein_grams := jsRound q
        confidence :=
          if c.getD "medium" = "low" ∨ c.getD "medium" = "medium" ∨ c.getD "medium" = "high"
          then c.getD "medium" else "medium"
        notes := String.mk ((n.getD "").data.take 300)
        fat_risk :=
          if fr.getD "medium" = "low" ∨ fr.getD "medium" = "medium" ∨ fr.getD "medium" = "high"
          then fr.getD "medium" else "medium"
        fibre_risk :=
          if fi.getD "medium" = "low" ∨ fi.getD "medium" = "medium" ∨ fi.getD "medium" = "high"
          then fi.getD "medium" else "medium"
        carb_type :=
          if ct.getD "mixed" = "low" ∨ ct.getD "mixed" = "mixed" ∨ ct.getD "mixed" = "refined_heavy"
          then ct.getD "mixed" else "mixed"
        meal_summary := clampText (ms.getD "") 140
        coaching := {
          five_min_fix := clampText ((co.getD ⟨none, none, none⟩).five_min_fix.getD "") 220
          next_time_tweak := clampText ((co.getD ⟨none, none, none⟩).next_time_tweak.getD "") 220
          reason := clampText ((co.getD ⟨none, none, none⟩).reason.getD "") 220 } } := by
  simp only [analyzeMealValidate]
  rw [if_neg (by push_neg; exact ⟨h0, h5⟩)]

/-- Claim C6: on every finite protein estimate in [0, 500] the validator
succeeds and returns the input rounded to the nearest integer (jsRound, the
source's Math.round, shown nearest by the second conjunct). -/
theorem C6_validator_rounds_protein :
    (∀ (parsed : ParsedOutput) (q : ℚ), parsed.protein_grams = .fin q →
      0 ≤ q → q ≤ 500 →
      ∃ out, analyzeMealValidate parsed = .ok out ∧ out.protein_grams = jsRound q) ∧
    (∀ q : ℚ, |(jsRound q : ℚ) - q| ≤ 1/2) := by
  constructor
  · intro parsed q hp h0 h5
    obtain ⟨pg, c, n, fr, fi, ct, ms, co⟩ := parsed
    simp only at hp
    subst hp
    rw [analyzeMealValidate_ok c n fr fi ct ms co q h0 h5]
    exact ⟨_, rfl, rfl⟩
  · exact jsRound_near

/-- Concrete instance of C6: protein 15.3 validates to 15 (and the rounding
bound holds there). -/
theorem C6_validator_rounds_protein_witness :
    (∃ out, analyzeMealValidate
        ⟨.fin (⟨153, 10, by decide, by decide⟩ : ℚ), some "high", some "ok",
          none, none, none, none, none⟩ = .ok out ∧
      out.protein_grams = jsRound (⟨153, 10, by decide, by decide⟩ : ℚ)) ∧
    |(jsRound (⟨153, 10, by decide, by decide⟩ : ℚ) : ℚ)
        - (⟨153, 10, by decide, by decide⟩ : ℚ)| ≤ 1/2 := by
  exact ⟨C6_validator_rounds_protein.1 _ _ rfl (by decide) (by decide),
    C6_validator_rounds_protein.2 _⟩

/-- Claim C7: an unrecognized or missing confidence, fat_risk, fibre_risk or
carb_type never fails the validator (given an otherwise valid output): the
documented default is substituted (medium / medium / medium / mixed), while
recognized values pass through unchanged. -/
theorem C7_enum_fields_default :
    ∀ (parsed : ParsedOutput) (q : ℚ), parsed.protein_grams = .fin q →
      0 ≤ q → q ≤ 500 →
      ∃ out, analyzeMealValidate parsed = .ok out ∧
        (parsed.confidence = none → out.confidence = "medium") ∧
        (∀ s, parsed.confidence = some s →
          s ∉ (["low", "medium", "high"] : List String) → out.confidence = "medium") ∧
        (∀ s, parsed.confidence = some s →
          s ∈ (["low", "medium", "high"] : List String) → out.confidence = s) ∧
        (parsed.fat_risk = none → out.fat_risk = "medium") ∧
        (∀ s, parsed.fat_risk = some s →
          s ∉ (["low", "medium", "high"] : List String) → out.fat_risk = "medium") ∧
        (∀ s, parsed.fat_risk = some s →
          s ∈ (["low", "medium", "high"] : List String) → out.fat_risk = s) ∧
        (parsed.fibre_risk = none → out.fibre_risk = "medium") ∧
        (∀ s, parsed.fibre_risk = some s →
          s ∉ (["low", "medium", "high"] : List String) → out.fibre_risk = "medium") ∧
        (∀ s, parsed.fibre_risk = some s →
          s ∈ (["low", "medium", "high"] : List String) → out.fibre_risk = s) ∧
        (parsed.carb_type = none → out.carb_type = "mixed") ∧
        (∀ s, parsed.carb_type = some s →
          s ∉ (["low", "mixed", "refined_heavy"] : List String) → out.carb_type = "mixed") ∧
        (∀ s, parsed.carb_type = some s →
          s ∈ (["low", "mixed", "refined_heavy"] : List String) → out.carb_type = s) := by
  intro parsed q hp h0 h5
  obtain ⟨pg, c, n, fr, fi, ct, ms, co⟩ := parsed
  simp only at hp
  subst hp
  rw [analyzeMealValidate_ok c n fr fi ct ms co q h0 h5]
  refine ⟨_, rfl, ?_, ?_, ?_, ?_, ?_, ?_, ?_, ?_, ?_, ?_, ?_, ?_⟩ <;>
    first
      | (rintro rfl; simp)
      | (rintro s rfl hs; simp_all)

/-- Concrete instance of C7: bogus confidence and carb_type become medium and
mixed, a missing fat_risk becomes medium, a recognized fibre_risk passes
through. -/
theorem C7_enum_fields_default_witness :
    ∃ out, analyzeMealValidate
        ⟨.fin 10, some "bogus", none, none, some "high", some "weird", none, none⟩ = .ok out ∧
      out.confidence = "medium" ∧ out.fat_risk = "medium" ∧
      out.fibre_risk = "high" ∧ out.carb_type = "mixed" := by
  obtain ⟨out, hok, _, hconf, _, hfatn, _, _, _, _, hfib, _, hcarb, _⟩ :=
    C7_enum_fields_default
      ⟨.fin 10, some "bogus", none, none, some "high", some "weird", none, none⟩
      10 rfl (by norm_num) (by norm_num)
  exact ⟨out, hok, hconf "bogus" rfl (by decide), hfatn rfl,
    hfib "high" rfl (by decide), hcarb "weird" rfl (by decide)⟩

/-- A string append with a non-empty left part is non-empty. -/
theorem append_ne_empty_of_left (s t : String) (h : s ≠ "") : s ++ t ≠ "" := by
  intro he
  apply h
  have hd := congrArg String.data he
  rw [String.data_append] at hd
  have h0 : s.data = [] := (List.append_eq_nil.mp hd).1
  cases s
  simp_all

/-- Claim C8: both deterministic coaching generators (fallbackCoaching of
part_000 and fallbackCoachingV1 of part_001) are pure total functions: every
scenario tag (the seven enumerated ones and any unrecognized tag, via the
default branch) yields a triple of non-empty strings, and the protein
estimate influences only the HIGH_PROTEIN rationale, into which the rounded
value is interpolated. -/
theorem C8_fallback_generator (s : String) (p q : ℚ) :
    ((fallbackCoaching s p).five_min_fix ≠ "" ∧
      (fallbackCoaching s p).next_time_tweak ≠ "" ∧
      (fallbackCoaching s p).reason ≠ "") ∧
    (fallbackCoaching s p).five_min_fix = (fallbackCoaching s q).five_min_fix ∧
    (fallbackCoaching s p).next_time_tweak = (fallbackCoaching s q).next_time_tweak ∧
    (s ≠ "HIGH_PROTEIN" → fallbackCoaching s p = fallbackCoaching s q) ∧
    (s = "HIGH_PROTEIN" → (fallbackCoaching s p).reason
      = "Protein is already strong (~" ++ toString (jsRound p) ++
        "g), so the win is consistency.") ∧
    ((fallbackCoachingV1 s p).five_min_fix ≠ "" ∧
      (fallbackCoachingV1 s p).next_time_tweak ≠ "" ∧
      (fallbackCoachingV1 s p).reason ≠ "") ∧
    (fallbackCoachingV1 s p).five_min_fix = (fallbackCoachingV1 s q).five_min_fix ∧
    (fallbackCoachingV1 s p).next_time_tweak = (fallbackCoachingV1 s q).next_time_tweak ∧
    (s ≠ "HIGH_PROTEIN" → fallbackCoachingV1 s p = fallbackCoachingV1 s q) ∧
    (s = "HIGH_PROTEIN" → (fallbackCoachingV1 s p).reason
      = "Protein is already strong (~" ++ toString (jsRound p) ++
        "g), so the win is consistency.") := by
  have hne : ∀ x : String,
      "Protein is already strong (~" ++ x ++ "g), so the win is consistency." ≠ "" :=
    fun x => append_ne_empty_of_left _ _ (append_ne_empty_of_left _ _ (by decide))
  unfold fallbackCoaching fallbackCoachingV1
  split_ifs with h1 h2 h3 h4 h5 h6 <;>
    refine ⟨⟨?_, ?_, ?_⟩, ?_, ?_, ?_, ?_, ⟨?_, ?_, ?_⟩, ?_, ?_, ?_, ?_⟩ <;>
    first
      | rfl
      | exact hne _
      | decide
      | (intro hc; first | rfl | simp_all)

/-- Concrete instance of C8: away from HIGH_PROTEIN the triple ignores the
protein value, and the HIGH_PROTEIN rationale interpolates the rounded
estimate. -/
theorem C8_fallback_generator_witness :
    fallbackCoaching "MEDIUM_PROTEIN" 25 = fallbackCoaching "MEDIUM_PROTEIN" 30 ∧
    (fallbackCoaching "HIGH_PROTEIN" 40).reason
      = "Protein is already strong (~40g), so the win is consistency." := by
  refine ⟨(C8_fallback_generator "MEDIUM_PROTEIN" 25 30).2.2.2.1 (by decide), ?_⟩
  have h := (C8_fallback_generator "HIGH_PROTEIN" 40 0).2.2.2.2.1 rfl
  rw [h]
  decide

/-- Claim C5 as stated is false on the code: the notes field is NOT passed
through the whitespace-collapsing, trimming, ellipsis-appending clamp; a
whitespace-only notes string survives unchanged, while the claimed clamping
would collapse it to the empty string. -/
theorem C5_notes_clamp_counterexample :
    (analyzeMealValidate ⟨.fin 10, none, some " ", none, none, none, none, none⟩).map
        (fun o => o.notes) = .ok " " ∧
    clampText " " 300 = "" ∧ (" " : String) ≠ "" := by decide

/-- Claim C5 amended: the validator truncates notes by a plain 300-character
slice (no whitespace collapsing, no trimming, no ellipsis marker); the
collapse/trim/ellipsis clamp applies to meal_summary (maximum 140) and to
each coaching string (maximum 220). -/
theorem C5_notes_slice_amended :
    ∀ (parsed : ParsedOutput) (q : ℚ), parsed.protein_grams = .fin q →
      0 ≤ q → q ≤ 500 →
      ∃ out, analyzeMealValidate parsed = .ok out ∧
        out.notes = String.mk ((parsed.notes.getD "").data.take 300) ∧
        out.meal_summary = clampText (parsed.meal_summary.getD "") 140 ∧
        out.coaching.five_min_fix
          = clampText ((parsed.coaching.getD ⟨none, none, none⟩).five_min_fix.getD "") 220 ∧
        out.coaching.next_time_tweak
          = clampText ((parsed.coaching.getD ⟨none, none, none⟩).next_time_tweak.getD "") 220 ∧
        out.coaching.reason
          = clampText ((parsed.coaching.getD ⟨none, none, none⟩).reason.getD "") 220 := by
  intro parsed q hp h0 h5
  obtain ⟨pg, c, n, fr, fi, ct, ms, co⟩ := parsed
  simp only at hp
  subst hp
  rw [analyzeMealValidate_ok c n fr fi ct ms co q h0 h5]
  exact ⟨_, rfl, rfl, rfl, rfl, rfl, rfl⟩

set_option maxRecDepth 8000 in
/-- Concrete instance of amended C5: a 400-character notes string is
truncated to its first 300 characters (no ellipsis). -/
theorem C5_notes_slice_amended_witness :
    ∃ out, analyzeMealValidate ⟨.fin 10, none,
        some (String.mk (List.replicate 400 'a')), none, none, none, none, none⟩ = .ok out ∧
      out.notes = String.mk (List.replicate 300 'a') := by
  obtain ⟨out, hok, hn, -, -, -, -⟩ :=
    C5_notes_slice_amended ⟨.fin 10, none,
      some (String.mk (List.replicate 400 'a')), none, none, none, none, none⟩
      10 rfl (by norm_num) (by norm_num)
  refine ⟨out, hok, ?_⟩
  rw [hn]
  decide

/-- Claim C1 as stated is false on the code: the lead-in test on
next_time_tweak is case-insensitive (the source lower-cases before
startsWith), so a triple whose tweak starts with the lower-case phrase is
accepted even though it does not begin with the literal lead-in, where the
claim requires the fallback. -/
theorem C1_coaching_gate_counterexample :
    chooseCoachingText
        ⟨25, "medium", "ok", "medium", "medium", "mixed", "",
          ⟨"Add a boiled egg.", "next time, add eggs to the crackers.",
            "Protein is a bit low."⟩⟩ "MEDIUM_PROTEIN"
      = ⟨"Add a boiled egg.", "next time, add eggs to the crackers.",
          "Protein is a bit low."⟩ ∧
    strStartsWith "next time, add eggs to the crackers." "Next time," = false ∧
    chooseCoachingText
        ⟨25, "medium", "ok", "medium", "medium", "mixed", "",
          ⟨"Add a boiled egg.", "next time, add eggs to the crackers.",
            "Protein is a bit low."⟩⟩ "MEDIUM_PROTEIN"
      ≠ fallbackCoaching "MEDIUM_PROTEIN" ((25 : ℤ) : ℚ) := by
  refine ⟨?_, by decide, ?_⟩ <;> decide

/-- Claim C1 amended: model coaching is used exactly when confidence is not
low, all three coaching fields are non-empty, and next_time_tweak begins
case-insensitively with the lead-in phrase; when any condition fails
(in particular whenever confidence is low) the deterministic fallback for the
derived scenario is returned. -/
theorem C1_coaching_gate_amended :
    ∀ (analysis : MealLLMOutput) (scenario_id : String),
      ((analysis.confidence ≠ "low" ∧ analysis.coaching.five_min_fix ≠ "" ∧
          analysis.coaching.next_time_tweak ≠ "" ∧ analysis.coaching.reason ≠ "" ∧
          strStartsWith (jsToLower analysis.coaching.next_time_tweak) "next time," = true) →
        chooseCoachingText analysis scenario_id = analysis.coaching) ∧
      (¬(analysis.confidence ≠ "low" ∧ analysis.coaching.five_min_fix ≠ "" ∧
          analysis.coaching.next_time_tweak ≠ "" ∧ analysis.coaching.reason ≠ "" ∧
          strStartsWith (jsToLower analysis.coaching.next_time_tweak) "next time," = true) →
        chooseCoachingText analysis scenario_id
          = fallbackCoaching scenario_id (analysis.protein_grams : ℚ)) ∧
      (analysis.confidence = "low" →
        chooseCoachingText analysis scenario_id
          = fallbackCoaching scenario_id (analysis.protein_grams : ℚ)) := by
  intro analysis scenario_id
  refine ⟨?_, ?_, ?_⟩
  · intro hp
    have h : llmCoachingOk analysis.confidence analysis.coaching := hp
    unfold chooseCoachingText
    rw [if_pos h]
  · intro hn
    have h : ¬ llmCoachingOk analysis.confidence analysis.coaching := hn
    unfold chooseCoachingText
    rw [if_neg h]
  · intro hlow
    have h : ¬ llmCoachingOk analysis.confidence analysis.coaching := fun hg => hg.1 hlow
    unfold chooseCoachingText
    rw [if_neg h]

/-- Concrete instance of amended C1: low confidence forces the fallback even
for a perfectly well-formed model coaching triple. -/
theorem C1_coaching_gate_amended_witness :
    chooseCoachingText
        ⟨30, "low", "ok", "medium", "medium", "mixed", "",
          ⟨"Add eggs now.", "Next time, add eggs to this meal.",
            "Because protein is low."⟩⟩ "UNKNOWN_MEAL"
      = fallbackCoaching "UNKNOWN_MEAL" ((30 : ℤ) : ℚ) := by
  exact (C1_coaching_gate_amended
    ⟨30, "low", "ok", "medium", "medium", "mixed", "",
      ⟨"Add eggs now.", "Next time, add eggs to this meal.",
        "Because protein is low."⟩⟩ "UNKNOWN_MEAL").2.2 rfl

/-- On a non-finite or out-of-range protein estimate the validator fails with
InvalidProteinEstimate. -/
theorem analyzeMealValidate_bad (parsed : ParsedOutput)
    (h : ∀ q : ℚ, parsed.protein_grams = .fin q → q < 0 ∨ 500 < q) :
    analyzeMealValidate parsed = .error .InvalidProteinEstimate := by
  obtain ⟨pg, c, n, fr, fi, ct, ms, co⟩ := parsed
  cases pg with
  | fin q =>
    simp only at h
    simp only [analyzeMealValidate]
    rw [if_pos (h q rfl)]
  | nan => rfl
  | posInf => rfl
  | negInf => rfl

/-- Claim C4: whenever the model output's protein_grams is non-numeric,
non-finite, negative or above 500, the request fails with the
InvalidProteinEstimate error (it is not clamped into range) and the
daily_totals state is returned unchanged. -/
theorem C4_invalid_protein_fatal
    (url meal_id : String) (ai ds du : Except String Unit)
    (rows : List DailyRow) (sid date pp : String)
    (mtext mtype : Option String) (parsed : ParsedOutput)
    (hs : jsTrim sid ≠ "") (hd : jsTrim date ≠ "") (hp : jsTrim pp ≠ "")
    (hbad : ∀ q : ℚ, parsed.protein_grams = .fin q → q < 0 ∨ 500 < q) :
    serveHandler ⟨.ok url, .ok meal_id, .ok parsed, ai, ds, du⟩ rows
        ⟨"POST", some sid, some date, mtext, mtype, some pp⟩
      = (⟨500, .errBody (vErrMessage .InvalidProteinEstimate)⟩, rows) := by
  have hv := analyzeMealValidate_bad parsed hbad
  simp only [serveHandler]
  rw [if_neg (by decide)]
  rw [if_neg (by decide)]
  rw [if_neg (by push_neg; exact ⟨hs, hd, hp⟩)]
  rw [hv]

/-- Concrete instance of C4: a NaN protein estimate (non-numeric model
output) yields the InvalidProteinEstimate failure and leaves the (empty)
daily_totals state untouched. -/
theorem C4_invalid_protein_fatal_witness :
    serveHandler ⟨.ok "u", .ok "m1",
        .ok ⟨.nan, some "high", some "clear photo", none, none, none, none, none⟩,
        .ok (), .ok (), .ok ()⟩ []
        ⟨"POST", some "s1", some "2026-01-01", none, some "lunch", some "p.jpg"⟩
      = (⟨500, .errBody (vErrMessage .InvalidProteinEstimate)⟩, []) := by
  exact C4_invalid_protein_fatal "u" "m1" (.ok ()) (.ok ()) (.ok ()) []
    "s1" "2026-01-01" "p.jpg" none (some "lunch")
    ⟨.nan, some "high", some "clear photo", none, none, none, none, none⟩
    (by decide) (by decide) (by decide) (fun q h => nomatch h)

/-- Claim C9: the HTTP status mapping of the handler.  A method other than
POST and OPTIONS gets 405; a POST missing session_id, date or photo_path
(empty after trimming, or absent) gets 400 with an error body; and each
downstream failure (signed URL, meals insert, inference, validation,
meal_analysis insert, daily_totals select, daily_totals upsert) surfaces as
500 with the error's message in the error body.  Each step's outcome is
consumed at most once on a single pass, so no failure is retried. -/
theorem C9_status_mapping :
    (∀ (env : Env) (rows : List DailyRow) (req : HttpRequest),
      req.method ≠ "POST" → req.method ≠ "OPTIONS" →
      serveHandler env rows req = (⟨405, .errBody "Only POST allowed"⟩, rows)) ∧
    (∀ (env : Env) (rows : List DailyRow) (req : HttpRequest),
      req.method = "POST" →
      (jsTrim (req.session_id.getD "") = "" ∨ jsTrim (req.date.getD "") = "" ∨
        jsTrim (req.photo_path.getD "") = "") →
      serveHandler env rows req
        = (⟨400, .errBody "Missing session_id, date, or photo_path"⟩, rows)) ∧
    (∀ (m : String) (mi : Except String String) (inf : Except String ParsedOutput)
      (ai ds du : Except String Unit) (rows : List DailyRow)
      (sid date pp : String) (mtext mtype : Option String),
      jsTrim sid ≠ "" → jsTrim date ≠ "" → jsTrim pp ≠ "" →
      serveHandler ⟨.error m, mi, inf, ai, ds, du⟩ rows
          ⟨"POST", some sid, some date, mtext, mtype, some pp⟩
        = (⟨500, .errBody ("createSignedUrl failed: " ++ m)⟩, rows)) ∧
    (∀ (url m : String) (inf : Except String ParsedOutput)
      (ai ds du : Except String Unit) (rows : List DailyRow)
      (sid date pp : String) (mtext mtype : Option String),
      jsTrim sid ≠ "" → jsTrim date ≠ "" → jsTrim pp ≠ "" →
      serveHandler ⟨.ok url, .error m, inf, ai, ds, du⟩ rows
          ⟨"POST", some sid, some date, mtext, mtype, some pp⟩
        = (⟨500, .errBody ("meals insert failed: " ++ m)⟩, rows)) ∧
    (∀ (url mid m : String) (ai ds du : Except String Unit) (rows : List DailyRow)
      (sid date pp : String) (mtext mtype : Option String),
      jsTrim sid ≠ "" → jsTrim date ≠ "" → jsTrim pp ≠ "" →
      serveHandler ⟨.ok url, .ok mid, .error m, ai, ds, du⟩ rows
          ⟨"POST", some sid, some date, mtext, mtype, some pp⟩
        = (⟨500, .errBody m⟩, rows)) ∧
    (∀ (url mid : String) (parsed : ParsedOutput) (e : VError)
      (ai ds du : Except String Unit) (rows : List DailyRow)
      (sid date pp : String) (mtext mtype : Option String),
      jsTrim sid ≠ "" → jsTrim date ≠ "" → jsTrim pp ≠ "" →
      analyzeMealValidate parsed = .error e →
      serveHandler ⟨.ok url, .ok mid, .ok parsed, ai, ds, du⟩ rows
          ⟨"POST", some sid, some date, mtext, mtype, some pp⟩
        = (⟨500, .errBody (vErrMessage e)⟩, rows)) ∧
    (∀ (url mid m : String) (parsed : ParsedOutput) (analysis : MealLLMOutput)
      (ds du : Except String Unit) (rows : List DailyRow)
      (sid date pp : String) (mtext mtype : Option String),
      jsTrim sid ≠ "" → jsTrim date ≠ "" → jsTrim pp ≠ "" →
      analyzeMealValidate parsed = .ok analysis →
      serveHandler ⟨.ok url, .ok mid, .ok parsed, .error m, ds, du⟩ rows
          ⟨"POST", some sid, some date, mtext, mtype, some pp⟩
        = (⟨500, .errBody ("meal_analysis insert failed: " ++ m)⟩, rows)) ∧
    (∀ (url mid m : String) (parsed : ParsedOutput) (analysis : MealLLMOutput)
      (du : Except String Unit) (rows : List DailyRow)
      (sid date pp : String) (mtext mtype : Option String),
      jsTrim sid ≠ "" → jsTrim date ≠ "" → jsTrim pp ≠ "" →
      analyzeMealValidate parsed = .ok analysis →
      serveHandler ⟨.ok url, .ok mid, .ok parsed, .ok (), .error m, du⟩ rows
          ⟨"POST", some sid, some date, mtext, mtype, some pp⟩
        = (⟨500, .errBody ("daily_totals select failed: " ++ m)⟩, rows)) ∧
    (∀ (url mid m : String) (parsed : ParsedOutput) (analysis : MealLLMOutput)
      (rows : List DailyRow)
      (sid date pp : String) (mtext mtype : Option String),
      jsTrim sid ≠ "" → jsTrim date ≠ "" → jsTrim pp ≠ "" →
      analyzeMealValidate parsed = .ok analysis →
      serveHandler ⟨.ok url, .ok mid, .ok parsed, .ok (), .ok (), .error m⟩ rows
          ⟨"POST", some sid, some date, mtext, mtype, some pp⟩
        = (⟨500, .errBody ("daily_totals upsert failed: " ++ m)⟩, rows)) := by
  refine ⟨?_, ?_, ?_, ?_, ?_, ?_, ?_, ?_, ?_⟩
  · intro env rows req hpost hopt
    simp only [serveHandler]
    rw [if_neg hopt, if_pos hpost]
  · intro env rows req hm hmiss
    simp only [serveHandler]
    rw [if_neg (by rw [hm]; decide), if_neg (by rw [hm]; decide), if_pos hmiss]
  · intro m mi inf ai ds du rows sid date pp mtext mtype hs hd hp
    simp only [serveHandler]
    rw [if_neg (by decide), if_neg (by decide),
      if_neg (by push_neg; exact ⟨hs, hd, hp⟩)]
  · intro url m inf ai ds du rows sid date pp mtext mtype hs hd hp
    simp only [serveHandler]
    rw [if_neg (by decide), if_neg (by decide),
      if_neg (by push_neg; exact ⟨hs, hd, hp⟩)]
  · intro url mid m ai ds du rows sid date pp mtext mtype hs hd hp
    simp only [serveHandler]
    rw [if_neg (by decide), if_neg (by decide),
      if_neg (by push_neg; exact ⟨hs, hd, hp⟩)]
  · intro url mid parsed e ai ds du rows sid date pp mtext mtype hs hd hp hv
    simp only [serveHandler]
    rw [if_neg (by decide), if_neg (by decide),
      if_neg (by push_neg; exact ⟨hs, hd, hp⟩), hv]
  · intro url mid m parsed analysis ds du rows sid date pp mtext mtype hs hd hp hv
    simp only [serveHandler]
    rw [if_neg (by decide), if_neg (by decide),
      if_neg (by push_neg; exact ⟨hs, hd, hp⟩), hv]
  · intro url mid m parsed analysis du rows sid date pp mtext mtype hs hd hp hv
    simp only [serveHandler]
    rw [if_neg (by decide), if_neg (by decide),
      if_neg (by push_neg; exact ⟨hs, hd, hp⟩), hv]
  · intro url mid m parsed analysis rows sid date pp mtext mtype hs hd hp hv
    simp only [serveHandler]
    rw [if_neg (by decide), if_neg (by decide),
      if_neg (by push_neg; exact ⟨hs, hd, hp⟩), hv]

/-- Concrete instances of C9: a GET gets 405, and an inference transport
failure surfaces as 500 carrying the transport error message. -/
theorem C9_status_mapping_witness :
    serveHandler ⟨.ok "u", .ok "m1", .error "OpenAI error 500: overloaded",
        .ok (), .ok (), .ok ()⟩ [] ⟨"GET", none, none, none, none, none⟩
      = (⟨405, .errBody "Only POST allowed"⟩, []) ∧
    serveHandler ⟨.ok "u", .ok "m1", .error "OpenAI error 500: overloaded",
        .ok (), .ok (), .ok ()⟩ []
        ⟨"POST", some "s1", some "2026-01-01", none, none, some "p.jpg"⟩
      = (⟨500, .errBody "OpenAI error 500: overloaded"⟩, []) := by
  exact ⟨C9_status_mapping.1 _ _ _ (by decide) (by decide),
    C9_status_mapping.2.2.2.2.1 "u" "m1" "OpenAI error 500: overloaded"
      (.ok ()) (.ok ()) (.ok ()) [] "s1" "2026-01-01" "p.jpg" none none
      (by decide) (by decide) (by decide)⟩

/-- Claim C10: remaining is goal minus new total and is not floored at zero
(a total beyond the goal yields a negative remaining, propagated verbatim
into the success response, as the concrete run with total 110 + 25 against
goal 120 shows); and the client-side degraded failure result always carries
protein 0 and confidence low. -/
theorem C10_remaining_not_floored :
    (∀ (rows : List DailyRow) (sid date : String) (grams : ℤ),
      (updateDailyTotals rows sid date grams).2.remaining
        = (updateDailyTotals rows sid date grams).2.protein_goal
          - (updateDailyTotals rows sid date grams).2.protein_total) ∧
    (∀ (rows : List DailyRow) (sid date : String) (grams : ℤ),
      (updateDailyTotals rows sid date grams).2.protein_goal
          < (updateDailyTotals rows sid date grams).2.protein_total →
      (updateDailyTotals rows sid date grams).2.remaining < 0) ∧
    (serveHandler ⟨.ok "u", .ok "m1",
        .ok ⟨.fin 25, some "high", some "ok", none, none, none, none,
          some ⟨some "Add a boiled egg.", some "Next time, add lentils to this soup.",
            some "Protein was moderate."⟩⟩, .ok (), .ok (), .ok ()⟩
        [⟨"s1", "2026-01-01", 110, 120⟩]
        ⟨"POST", some "s1", some "2026-01-01", none, none, some "p.jpg"⟩
      = (⟨200, .success "m1" 25 "high" "ok"
          ⟨"MEDIUM_PROTEIN", "protein", "Add a boiled egg.",
            "Next time, add lentils to this soup.", "Protein was moderate."⟩
          ⟨"2026-01-01", 135, 120, -15⟩⟩,
        [⟨"s1", "2026-01-01", 135, 120⟩])) ∧
    (∀ msg : String, (degradedMealResult msg).protein = 0 ∧
      (degradedMealResult msg).confidence = "low") := by
  refine ⟨fun rows sid date grams => rfl, ?_, by decide, fun msg => ⟨rfl, rfl⟩⟩
  intro rows sid date grams h
  have h1 : (updateDailyTotals rows sid date grams).2.remaining
      = (updateDailyTotals rows sid date grams).2.protein_goal
        - (updateDailyTotals rows sid date grams).2.protein_total := rfl
  omega

/-- Concrete instance of C10: a 25 g meal on top of a 110 g total against the
120 g goal leaves a negative remaining. -/
theorem C10_remaining_not_floored_witness :
    (updateDailyTotals [⟨"s1", "2026-01-01", 110, 120⟩]
        "s1" "2026-01-01" 25).2.remaining < 0 :=
  C10_remaining_not_floored.2.1 _ _ _ _ (by decide)
